import Mathlib

/-!
Shallow embedding of the retrieval-augmented chatbot pipeline
(`src/response_generator.py`, `src/knowledge_base.py`, `src/tts_service.py`,
`src/chatbot.py`, `src/config.py`) and proofs about the spec's claims.

Conventions of the embedding:
* Python dicts `{"role": r, "content": c}` become the `Message` structure.
* Python lists become Lean `List`s; the slice `xs[-(k):]` becomes `pyTakeLast`
  (including the Python quirk that `xs[-0:]` is the whole list).
* Python float distances become `ℚ` (every IEEE double is a dyadic rational,
  so the rationals used in concrete statements evaluate exactly as the code
  would).
* Fallible collaborator calls (OpenAI chat completion, ChromaDB query/add,
  VITS synthesis + file write) are parameters of type `... → Except String _`;
  a `.error` models a raised exception at the one call site, `.ok` a normal
  return.  Functions additionally return the list of collaborator invocations
  they performed, so that call counts are statable.
-/

/-- One chat message, as the Python dict `{"role": ..., "content": ...}`. -/
structure Message where
  role : String
  content : String
deriving DecidableEq, Repr

/-- `config.MAX_HISTORY_TURNS` from `src/config.py`. -/
def MAX_HISTORY_TURNS : Nat := 10

/-- `config.TOP_K_RESULTS` from `src/config.py`. -/
def TOP_K_RESULTS : Nat := 3

/-- Python's `xs[-(k):]`: the last `k` elements — except that for `k = 0`
the slice `xs[-0:]` is `xs[0:]`, i.e. the whole list. -/
def pyTakeLast (k : Nat) (xs : List α) : List α :=
  if k = 0 then xs else xs.drop (xs.length - k)

/-- A history with one user turn and one assistant turn appended, in that
order (`src/response_generator.py:123-124`). -/
def snocPair (hist : List Message) (u a : String) : List Message :=
  hist ++ [⟨"user", u⟩, ⟨"assistant", a⟩]

/-- `ResponseGenerator.add_to_history` (`src/response_generator.py:115-128`):
append the user message then the assistant message, then trim to the last
`max_history * 2` entries when the bound is exceeded. -/
def add_to_history (maxHistory : Nat) (hist : List Message)
    (userMessage assistantMessage : String) : List Message :=
  if (snocPair hist userMessage assistantMessage).length > maxHistory * 2
  then pyTakeLast (maxHistory * 2) (snocPair hist userMessage assistantMessage)
  else snocPair hist userMessage assistantMessage

/-- N sequential `add_to_history` calls starting from the given history. -/
def runAppends (maxHistory : Nat) (ps : List (String × String)) : List Message :=
  ps.foldl (fun h p => add_to_history maxHistory h p.1 p.2) []

/-- The full, untrimmed sequence of turns an append sequence would produce. -/
def flatTurns (ps : List (String × String)) : List Message :=
  ps.flatMap (fun p => [⟨"user", p.1⟩, ⟨"assistant", p.2⟩])

theorem pyTakeLast_of_ne (k : Nat) (hk : k ≠ 0) (xs : List α) :
    pyTakeLast k xs = xs.drop (xs.length - k) := by
  simp [pyTakeLast, hk]

theorem length_pyTakeLast_le (k : Nat) (hk : k ≠ 0) (xs : List α) :
    (pyTakeLast k xs).length ≤ k := by
  rw [pyTakeLast_of_ne k hk]
  rw [List.length_drop]
  omega

theorem length_flatTurns (ps : List (String × String)) :
    (flatTurns ps).length = 2 * ps.length := by
  induction ps with
  | nil => simp [flatTurns]
  | cons p ps ih =>
    simp only [flatTurns, List.flatMap_cons] at *
    simp [ih]
    omega

theorem flatTurns_append (ps qs : List (String × String)) :
    flatTurns (ps ++ qs) = flatTurns ps ++ flatTurns qs := by
  simp [flatTurns]

theorem runAppends_snoc (m : Nat) (ps : List (String × String)) (p : String × String) :
    runAppends m (ps ++ [p]) = add_to_history m (runAppends m ps) p.1 p.2 := by
  simp [runAppends, List.foldl_append]

/-- Both branches of the trim conditional equal a single `drop` from the front. -/
theorem trim_eq_drop (k : Nat) (hk : k ≠ 0) (h : List α) :
    (if h.length > k then pyTakeLast k h else h) = h.drop (h.length - k) := by
  by_cases hc : h.length > k
  · rw [if_pos hc, pyTakeLast_of_ne k hk]
  · rw [if_neg hc]
    have h0 : h.length - k = 0 := by omega
    rw [h0, List.drop_zero]

/-- Core invariant: after any sequence of appends the history is exactly the
suffix of the full turn sequence that fits in the `maxHistory * 2` window. -/
theorem runAppends_eq_drop (m : Nat) (hm : 0 < m) (ps : List (String × String)) :
    runAppends m ps = (flatTurns ps).drop ((flatTurns ps).length - m * 2) := by
  induction ps using List.reverseRecOn with
  | nil => simp [runAppends, flatTurns]
  | append_singleton ps p ih =>
    have hsnoc : flatTurns (ps ++ [p])
        = flatTurns ps ++ [⟨"user", p.1⟩, ⟨"assistant", p.2⟩] := by
      rw [flatTurns_append]; rfl
    rw [runAppends_snoc, ih, hsnoc]
    simp only [add_to_history]
    rw [trim_eq_drop (m * 2) (by omega)]
    simp only [snocPair]
    rw [List.drop_append_eq_append_drop, List.drop_append_eq_append_drop, List.drop_drop]
    simp only [List.length_append, List.length_drop, List.length_cons, List.length_nil]
    congr 1
    · congr 1
      omega
    · congr 1
      omega

/-- **C1**: starting from an empty conversation, after N `add_to_history` calls
(each appending one user turn then one assistant turn) the history holds
exactly `min (2N) (maxHistory * 2)` turns, the count is always even, and the
history is the suffix of the full turn sequence (oldest turns evicted first,
in whole pairs). -/
theorem C1_history_bound (m : Nat) (hm : 0 < m) (ps : List (String × String)) :
    (runAppends m ps).length = min (2 * ps.length) (m * 2) ∧
    Even (runAppends m ps).length ∧
    runAppends m ps = (flatTurns ps).drop (2 * ps.length - m * 2) := by
  have h := runAppends_eq_drop m hm ps
  have hF := length_flatTurns ps
  refine ⟨?_, ?_, ?_⟩
  · rw [h, List.length_drop, hF]
    omega
  · rw [h, List.length_drop, hF]
    exact ⟨min ps.length m, by omega⟩
  · rw [h, hF]

/-- Witness for C1: `maxHistory = 2`, three appends, eviction of the oldest pair. -/
theorem C1_history_bound_witness :
    0 < 2 ∧
    (runAppends 2 [("u1", "a1"), ("u2", "a2"), ("u3", "a3")]).length = min (2 * 3) (2 * 2) ∧
    runAppends 2 [("u1", "a1"), ("u2", "a2"), ("u3", "a3")] =
      [⟨"user", "u2"⟩, ⟨"assistant", "a2"⟩, ⟨"user", "u3"⟩, ⟨"assistant", "a3"⟩] := by
  refine ⟨by decide, (C1_history_bound 2 (by decide) [("u1", "a1"), ("u2", "a2"), ("u3", "a3")]).1, ?_⟩
  decide

/-- Knowledge-base grounding wrapper inserted as a second system message
(`src/response_generator.py:77-81`). -/
def contextMessage (context : String) : String :=
  "Based on the following information from our knowledge base, please answer the user's question:\n\n"
    ++ context
    ++ "\n\nRemember to synthesize this information naturally in your response. Don't just copy it verbatim."

/-- Fallback when the completion has `None` content (`src/response_generator.py:101`). -/
def fallbackResponse : String := "I apologize, but I couldn't generate a response."

/-- Apology string built in the `except` branch (`src/response_generator.py:111`). -/
def errorResponse (e : String) : String :=
  "I apologize, but I encountered an error: " ++ e

/-- Python truthiness of an `Optional[str]`: `None` and `""` are falsy. -/
def pyTruthy : Option String → Bool
  | none => false
  | some s => s != ""

/-- The `messages` list assembled by `ResponseGenerator.generate_response`
(`src/response_generator.py:66-85`).  `if context:` is Python truthiness
(`pyTruthy`): both `None` and the empty string skip the grounding block;
likewise the history block is skipped when the history list is empty. -/
def buildMessages (maxHistory : Nat) (sysPrompt : String) (hist : List Message)
    (userQuery : String) (context : Option String) (includeHistory : Bool) : List Message :=
  let m1 : List Message := [⟨"system", sysPrompt⟩]
  let m2 : List Message :=
    if includeHistory && !hist.isEmpty then m1 ++ pyTakeLast (maxHistory * 2) hist else m1
  let m3 : List Message :=
    if pyTruthy context then m2 ++ [⟨"system", contextMessage (context.getD "")⟩] else m2
  m3 ++ [⟨"user", userQuery⟩]

/-- Result of one `generate_response` call: the returned text, the
conversation history afterwards, and the message list of every chat-completion
collaborator invocation performed during the call. -/
structure GenResult where
  response : String
  history : List Message
  calls : List (List Message)
deriving DecidableEq, Repr

/-- `ResponseGenerator.generate_response` (`src/response_generator.py:48-113`).
`complete` is the OpenAI chat-completion collaborator: `.error e` models an
exception raised by `client.chat.completions.create` (the only fallible
statement inside the `try` block), `.ok none` a completion whose
`message.content` is `None`, `.ok (some s)` a normal completion. -/
def generate_response (maxHistory : Nat) (sysPrompt : String) (hist : List Message)
    (userQuery : String) (context : Option String) (includeHistory : Bool)
    (complete : List Message → Except String (Option String)) : GenResult :=
  let messages := buildMessages maxHistory sysPrompt hist userQuery context includeHistory
  match complete messages with
  | .error e => ⟨errorResponse e, hist, [messages]⟩
  | .ok content =>
    let assistantResponse :=
      match content with
      | none => fallbackResponse
      | some s => s.trim
    ⟨assistantResponse, add_to_history maxHistory hist userQuery assistantResponse, [messages]⟩

theorem errorResponse_ne_empty (e : String) : errorResponse e ≠ "" := by
  intro h
  have h2 := congrArg String.length h
  rw [errorResponse, String.length_append] at h2
  have h3 : ("I apologize, but I encountered an error: ").length = 41 := rfl
  have h4 : ("" : String).length = 0 := rfl
  rw [h3, h4] at h2
  omega

theorem length_add_to_history (m : Nat) (hm : 0 < m) (hist : List Message) (u a : String) :
    (add_to_history m hist u a).length = min (hist.length + 2) (m * 2) := by
  unfold add_to_history
  rw [trim_eq_drop (m * 2) (by omega)]
  rw [List.length_drop]
  simp only [snocPair, List.length_append, List.length_cons, List.length_nil]
  omega

/-- The appended pair survives trimming: it is always the suffix of the new
history (for a positive window). -/
theorem add_to_history_suffix (m : Nat) (hm : 0 < m) (hist : List Message) (u a : String) :
    ∃ pre, add_to_history m hist u a = pre ++ [⟨"user", u⟩, ⟨"assistant", a⟩] := by
  unfold add_to_history
  rw [trim_eq_drop (m * 2) (by omega)]
  simp only [snocPair]
  rw [List.drop_append_eq_append_drop]
  refine ⟨List.drop ((hist ++ [(⟨"user", u⟩ : Message), ⟨"assistant", a⟩]).length - m * 2) hist, ?_⟩
  congr 1
  have h0 : ((hist ++ [(⟨"user", u⟩ : Message), ⟨"assistant", a⟩]).length - m * 2) - hist.length = 0 := by
    simp only [List.length_append, List.length_cons, List.length_nil]
    omega
  rw [h0]
  rfl

/-- **C2**: if the chat-completion collaborator raises, `generate_response`
returns the non-empty apology embedding the failure reason, performs exactly
one collaborator invocation, and leaves the history unchanged (no turn pair is
appended for the failed exchange); if the collaborator returns normally,
exactly one invocation is made and the exchange is appended: the new history
ends with the user/assistant pair. -/
theorem C2_failure_isolation (maxHistory : Nat) (hm : 0 < maxHistory)
    (sysPrompt : String) (hist : List Message) (userQuery : String)
    (context : Option String) (includeHistory : Bool)
    (complete : List Message → Except String (Option String))
    (msgs : List Message)
    (hmsgs : msgs = buildMessages maxHistory sysPrompt hist userQuery context includeHistory) :
    (∀ e, complete msgs = .error e →
        generate_response maxHistory sysPrompt hist userQuery context includeHistory complete
          = ⟨errorResponse e, hist, [msgs]⟩ ∧ errorResponse e ≠ "") ∧
    (∀ c, complete msgs = .ok c →
        (generate_response maxHistory sysPrompt hist userQuery context includeHistory complete).calls
          = [msgs] ∧
        ∃ pre,
          (generate_response maxHistory sysPrompt hist userQuery context includeHistory complete).history
            = pre ++ [⟨"user", userQuery⟩,
                ⟨"assistant",
                 (generate_response maxHistory sysPrompt hist userQuery context includeHistory
                    complete).response⟩]) := by
  subst hmsgs
  constructor
  · intro e he
    refine ⟨?_, errorResponse_ne_empty e⟩
    simp only [generate_response]
    rw [he]
  · intro c hc
    simp only [generate_response]
    rw [hc]
    exact ⟨rfl, add_to_history_suffix maxHistory hm hist userQuery _⟩

/-- Witness for C2: a collaborator that raises `"boom"` yields the apology,
an unchanged history, and a single recorded invocation. -/
theorem C2_failure_isolation_witness :
    generate_response 10 "sys" [⟨"user", "u0"⟩, ⟨"assistant", "a0"⟩] "hello" none true
        (fun _ => .error "boom")
      = ⟨errorResponse "boom", [⟨"user", "u0"⟩, ⟨"assistant", "a0"⟩],
         [buildMessages 10 "sys" [⟨"user", "u0"⟩, ⟨"assistant", "a0"⟩] "hello" none true]⟩ :=
  ((C2_failure_isolation 10 (by decide) "sys" [⟨"user", "u0"⟩, ⟨"assistant", "a0"⟩] "hello"
      none true (fun _ => .error "boom") _ rfl).1 "boom" rfl).1

/-- A history already at the configured bound: 10 user/assistant pairs. -/
def fullHistory : List Message :=
  (List.range 10).flatMap (fun i => [⟨"user", toString i⟩, ⟨"assistant", toString i⟩])

/-- **C10 counterexample**: with the history already at the bound (20 entries,
`max_history = 10` as configured) and a completion with `None` content,
`generate_response` returns the fallback and the history still holds 20
entries afterwards — it does not grow by 2 (the oldest pair is evicted). -/
theorem C10_no_growth_at_bound :
    fullHistory.length = 20 ∧
    (generate_response 10 "sys" fullHistory "q" none true (fun _ => .ok none)).response
      = fallbackResponse ∧
    (generate_response 10 "sys" fullHistory "q" none true (fun _ => .ok none)).history.length
      = 20 := by
  refine ⟨by decide, by decide, by decide⟩

/-- **C10 (amended)**: when the completion content is absent (`None`) the
returned text is the fixed fallback string and — unlike the exception path —
the user message and the fallback are appended to the history as a pair via
`add_to_history`; the pair is the new suffix, and the length becomes
`min (old + 2) (max_history * 2)`, i.e. the history grows by 2 exactly while
under the bound. -/
theorem C10_none_content_fallback (maxHistory : Nat) (hm : 0 < maxHistory)
    (sysPrompt : String) (hist : List Message) (userQuery : String)
    (context : Option String) (includeHistory : Bool)
    (complete : List Message → Except String (Option String))
    (hc : complete (buildMessages maxHistory sysPrompt hist userQuery context includeHistory)
      = .ok none) :
    (generate_response maxHistory sysPrompt hist userQuery context includeHistory complete).response
      = fallbackResponse ∧
    (generate_response maxHistory sysPrompt hist userQuery context includeHistory complete).history
      = add_to_history maxHistory hist userQuery fallbackResponse ∧
    (∃ pre,
      (generate_response maxHistory sysPrompt hist userQuery context includeHistory complete).history
        = pre ++ [⟨"user", userQuery⟩, ⟨"assistant", fallbackResponse⟩]) ∧
    (generate_response maxHistory sysPrompt hist userQuery context includeHistory
        complete).history.length
      = min (hist.length + 2) (maxHistory * 2) := by
  simp only [generate_response]
  rw [hc]
  exact ⟨rfl, rfl, add_to_history_suffix maxHistory hm hist userQuery _,
    length_add_to_history maxHistory hm hist userQuery _⟩

/-- Witness for the amended C10: empty history, `None`-content completion. -/
theorem C10_none_content_fallback_witness :
    (generate_response 10 "s" [] "q" none true (fun _ => .ok none)).response = fallbackResponse ∧
    (generate_response 10 "s" [] "q" none true (fun _ => .ok none)).history.length
      = min (([] : List Message).length + 2) (10 * 2) :=
  ⟨(C10_none_content_fallback 10 (by decide) "s" [] "q" none true (fun _ => .ok none) rfl).1,
   (C10_none_content_fallback 10 (by decide) "s" [] "q" none true (fun _ => .ok none) rfl).2.2.2⟩

/-- Metadata dict of a stored document.  Fields are `Option` because
`format_context` reads them with `metadata.get(key, "N/A")`; ingestion
(`load_faqs_from_json`) always fills all four keys. -/
structure Meta where
  question : Option String
  answer : Option String
  category : Option String
  source : Option String
deriving DecidableEq, Repr

/-- The dict returned by `KnowledgeBase.search` (`src/knowledge_base.py:144-149`). -/
structure SearchRes where
  documents : List String
  metadatas : List Meta
  distances : List ℚ
  count : Nat
deriving DecidableEq, Repr

/-- Raw ChromaDB `collection.query` result: one inner list per query text. -/
structure QueryRes where
  documents : List (List String)
  metadatas : List (List Meta)
  distances : List (List ℚ)
deriving DecidableEq, Repr

/-- `KnowledgeBase.search` (`src/knowledge_base.py:124-153`): resolve the
`top_k` default, delegate to the vector-store collaborator, unwrap the
per-query inner lists (`xs[0] if xs else []` — Python truthiness), and turn
every collaborator exception into the empty result. -/
def search (collab : String → Nat → Except String QueryRes) (query : String)
    (topK : Option Nat) : SearchRes :=
  match collab query (topK.getD TOP_K_RESULTS) with
  | .error _ => ⟨[], [], [], 0⟩
  | .ok results =>
    { documents := if results.documents.isEmpty then [] else results.documents.headD []
      metadatas := if results.metadatas.isEmpty then [] else results.metadatas.headD []
      distances := if results.distances.isEmpty then [] else results.distances.headD []
      count := if results.documents.isEmpty then 0 else (results.documents.headD []).length }

/-- Round to the nearest integer with ties to even — the rounding Python's
fixed-point float formatting performs (on doubles, which are exactly the
dyadic rationals, `:.2f` rounds the true value half-to-even). -/
def roundHalfEven (q : ℚ) : Int :=
  if q - ⌊q⌋ < 1/2 then ⌊q⌋
  else if q - ⌊q⌋ > 1/2 then ⌊q⌋ + 1
  else if ⌊q⌋ % 2 = 0 then ⌊q⌋ else ⌊q⌋ + 1

/-- Python's `f"{x:.2f}"`: the value rendered with exactly two decimals. -/
def fmt2 (q : ℚ) : String :=
  let n : Int := roundHalfEven (q * 100)
  let sign := if n < 0 then "-" else ""
  let m := n.natAbs
  sign ++ toString (m / 100) ++ "." ++ (if m % 100 < 10 then "0" else "") ++ toString (m % 100)

/-- The sentinel returned on an empty result (`src/knowledge_base.py:241`). -/
def noInfoSentinel : String := "No relevant information found in the knowledge base."

/-- The header part (`src/knowledge_base.py:243`). -/
def contextHeader : String := "Here is relevant information from the knowledge base:\n"

/-- The `[Source i - Relevance: …]` line (`src/knowledge_base.py:250`). -/
def sourceLine (i : Nat) (d : ℚ) : String :=
  "\n[Source " ++ toString i ++ " - Relevance: " ++ fmt2 (1 - d) ++ "]"

/-- The four parts `format_context` appends for one hit
(`src/knowledge_base.py:250-253`). -/
def sourceBlock (i : Nat) (m : Meta) (d : ℚ) : List String :=
  [sourceLine i d,
   "Category: " ++ m.category.getD "N/A",
   "Q: " ++ m.question.getD "N/A",
   "A: " ++ m.answer.getD "N/A"]

/-- Python's `"\n".join(parts)`. -/
def joinNL : List String → String
  | [] => ""
  | p :: ps => ps.foldl (fun acc x => acc ++ "\n" ++ x) p

/-- `KnowledgeBase.format_context` (`src/knowledge_base.py:230-255`): the
sentinel on an empty result, otherwise the loop
`for i, (doc, metadata, distance) in enumerate(zip(docs, metas, dists), 1)`
appending four parts per hit to `context_parts`, then `"\n".join`. -/
def format_context (r : SearchRes) : String :=
  if r.count = 0 then noInfoSentinel
  else
    joinNL ((r.documents.zip (r.metadatas.zip r.distances)).foldl
      (fun acc e => (acc.1 ++ sourceBlock acc.2 e.2.1 e.2.2, acc.2 + 1))
      ([contextHeader], 1)).1

/-- Specification-side regrouping of the loop: the parts contributed by the
hits, in input order, with 1-based indices starting at `i`. -/
def contextBlocks : List (String × Meta × ℚ) → Nat → List String
  | [], _ => []
  | e :: es, i => sourceBlock i e.2.1 e.2.2 ++ contextBlocks es (i + 1)

theorem format_foldl_eq (entries : List (String × Meta × ℚ)) (acc : List String) (i : Nat) :
    (entries.foldl (fun acc e => (acc.1 ++ sourceBlock acc.2 e.2.1 e.2.2, acc.2 + 1)) (acc, i)).1
      = acc ++ contextBlocks entries i := by
  induction entries generalizing acc i with
  | nil => simp [contextBlocks]
  | cons e es ih =>
    simp only [List.foldl_cons, contextBlocks]
    rw [ih, List.append_assoc]

theorem contextBlocks_getElem (entries : List (String × Meta × ℚ)) (i j : Nat)
    (e : String × Meta × ℚ) (hj : entries[j]? = some e) :
    (contextBlocks entries i)[4 * j]? = some (sourceLine (i + j) e.2.2) ∧
    (contextBlocks entries i)[4 * j + 1]? = some ("Category: " ++ e.2.1.category.getD "N/A") ∧
    (contextBlocks entries i)[4 * j + 2]? = some ("Q: " ++ e.2.1.question.getD "N/A") ∧
    (contextBlocks entries i)[4 * j + 3]? = some ("A: " ++ e.2.1.answer.getD "N/A") := by
  induction entries generalizing i j with
  | nil => simp at hj
  | cons f es ih =>
    cases j with
    | zero =>
      have hf : f = e := by simpa using hj
      subst hf
      simp [contextBlocks, sourceBlock]
    | succ j =>
      have hj2 : es[j]? = some e := by simpa using hj
      have ih2 := ih (i + 1) j hj2
      have hlen : (sourceBlock i f.2.1 f.2.2).length = 4 := rfl
      have hskip : ∀ t : Nat, (contextBlocks (f :: es) i)[4 + t]? = (contextBlocks es (i + 1))[t]? := by
        intro t
        show ((sourceBlock i f.2.1 f.2.2) ++ contextBlocks es (i + 1))[4 + t]? = _
        rw [List.getElem?_append_right (by omega)]
        congr 1
        omega
      have harith : i + (j + 1) = (i + 1) + j := by omega
      refine ⟨?_, ?_, ?_, ?_⟩
      · rw [show 4 * (j + 1) = 4 + 4 * j from by omega, hskip, harith]
        exact ih2.1
      · rw [show 4 * (j + 1) + 1 = 4 + (4 * j + 1) from by omega, hskip]
        exact ih2.2.1
      · rw [show 4 * (j + 1) + 2 = 4 + (4 * j + 2) from by omega, hskip]
        exact ih2.2.2.1
      · rw [show 4 * (j + 1) + 3 = 4 + (4 * j + 3) from by omega, hskip]
        exact ih2.2.2.2

/-- A concrete one-hit search result with distance `1/8` (exactly
representable as an IEEE double, so the Python run computes the same values). -/
def rEx : SearchRes :=
  ⟨["Question: Q1\nAnswer: A1"],
   [⟨some "Q1", some "A1", some "billing", some "faqs.json"⟩],
   [1/8], 1⟩

/-- **C5**: `format_context` of an empty result is the fixed
"no information found" sentinel; of a non-empty result it is the join of the
header and, for every hit in input order, a four-part block carrying the
1-based source index, the category, and the question and answer text. -/
theorem C5_format_context (r : SearchRes) :
    (r.count = 0 → format_context r = noInfoSentinel) ∧
    (r.count ≠ 0 →
      format_context r
        = joinNL (contextHeader ::
            contextBlocks (r.documents.zip (r.metadatas.zip r.distances)) 1) ∧
      ∀ j e, (r.documents.zip (r.metadatas.zip r.distances))[j]? = some e →
        (contextBlocks (r.documents.zip (r.metadatas.zip r.distances)) 1)[4 * j]?
            = some (sourceLine (1 + j) e.2.2) ∧
        (contextBlocks (r.documents.zip (r.metadatas.zip r.distances)) 1)[4 * j + 1]?
            = some ("Category: " ++ e.2.1.category.getD "N/A") ∧
        (contextBlocks (r.documents.zip (r.metadatas.zip r.distances)) 1)[4 * j + 2]?
            = some ("Q: " ++ e.2.1.question.getD "N/A") ∧
        (contextBlocks (r.documents.zip (r.metadatas.zip r.distances)) 1)[4 * j + 3]?
            = some ("A: " ++ e.2.1.answer.getD "N/A")) := by
  constructor
  · intro h
    simp [format_context, h]
  · intro h
    refine ⟨?_, ?_⟩
    · simp only [format_context, if_neg h]
      rw [format_foldl_eq]
      rfl
    · intro j e hj
      exact contextBlocks_getElem _ 1 j e hj

/-- Witness for C5: the sentinel on the empty result, and the structured join
on the concrete one-hit result. -/
theorem C5_format_context_witness :
    format_context ⟨[], [], [], 0⟩ = noInfoSentinel ∧
    format_context rEx
      = joinNL (contextHeader ::
          contextBlocks (rEx.documents.zip (rEx.metadatas.zip rEx.distances)) 1) :=
  ⟨(C5_format_context ⟨[], [], [], 0⟩).1 rfl,
   ((C5_format_context rEx).2 (by decide)).1⟩

theorem roundHalfEven_eval : roundHalfEven ((1 - (1/8 : ℚ)) * 100) = 88 := by
  have h1 : (1 - (1/8 : ℚ)) * 100 = 175/2 := by norm_num
  rw [roundHalfEven, h1]
  have hf : ⌊(175/2 : ℚ)⌋ = 87 := by
    rw [Int.floor_eq_iff]
    constructor <;> norm_num
  rw [hf]
  rw [if_neg (by norm_num), if_neg (by norm_num), if_neg (by decide)]
  decide

theorem fmt2_eval : fmt2 (1 - (1/8 : ℚ)) = "0.88" := by
  simp only [fmt2]
  rw [roundHalfEven_eval]
  decide

theorem sourceLine_eval : sourceLine 1 (1/8) = "\n[Source 1 - Relevance: 0.88]" := by
  simp only [sourceLine]
  rw [fmt2_eval]
  decide

/-- **C4 counterexample**: at distance `1/8` the exact relevance is
`1 − 1/8 = 0.875`, but the context string reports `"Relevance: 0.88"` —
the code formats `1 - distance` with `:.2f`, so the reported score is the
two-decimal rounding, not `1 − distance` exactly. -/
theorem C4_exact_relevance_counterexample :
    rEx.distances = [1/8] ∧
    format_context rEx
      = "Here is relevant information from the knowledge base:\n\n\n[Source 1 - Relevance: 0.88]\nCategory: billing\nQ: Q1\nA: A1" ∧
    fmt2 (1 - (1/8 : ℚ)) = "0.88" ∧
    (1 : ℚ) - 1/8 ≠ 88/100 := by
  refine ⟨rfl, ?_, fmt2_eval, by norm_num⟩
  have h0 : format_context rEx
      = joinNL (contextHeader ::
          contextBlocks (rEx.documents.zip (rEx.metadatas.zip rEx.distances)) 1) := by
    simp only [format_context]
    rw [if_neg (by decide)]
    rw [format_foldl_eq]
    rfl
  have h1 : contextBlocks (rEx.documents.zip (rEx.metadatas.zip rEx.distances)) 1
      = [sourceLine 1 (1/8), "Category: billing", "Q: Q1", "A: A1"] := rfl
  rw [h0, h1, sourceLine_eval]
  decide

/-- **C4 (amended)**: for every hit of a non-empty result, the relevance
reported in the context string is `1 − distance` rendered to two decimal
places (`fmt2`, Python's `:.2f`), exact only when `1 − distance` is a
multiple of `1/100`. -/
theorem C4_relevance_two_decimals (r : SearchRes) (hc : r.count ≠ 0) (j : Nat)
    (e : String × Meta × ℚ)
    (hj : (r.documents.zip (r.metadatas.zip r.distances))[j]? = some e) :
    ∃ parts, format_context r = joinNL parts ∧
      parts[1 + 4 * j]? = some (sourceLine (1 + j) e.2.2) ∧
      sourceLine (1 + j) e.2.2
        = "\n[Source " ++ toString (1 + j) ++ " - Relevance: " ++ fmt2 (1 - e.2.2) ++ "]" := by
  refine ⟨contextHeader :: contextBlocks (r.documents.zip (r.metadatas.zip r.distances)) 1,
    ?_, ?_, rfl⟩
  · simp only [format_context, if_neg hc]
    rw [format_foldl_eq]
    rfl
  · rw [show 1 + 4 * j = (4 * j) + 1 from by omega]
    rw [List.getElem?_cons_succ]
    exact (contextBlocks_getElem _ 1 j e hj).1

/-- Witness for the amended C4, at the concrete one-hit result. -/
theorem C4_relevance_two_decimals_witness :
    ∃ parts, format_context rEx = joinNL parts ∧
      parts[1 + 4 * 0]? = some (sourceLine (1 + 0) (1/8)) ∧
      sourceLine (1 + 0) (1/8)
        = "\n[Source " ++ toString (1 + 0) ++ " - Relevance: " ++ fmt2 (1 - (1/8 : ℚ)) ++ "]" := by
  exact C4_relevance_two_decimals rEx (by decide) 0
    ("Question: Q1\nAnswer: A1", ⟨some "Q1", some "A1", some "billing", some "faqs.json"⟩, 1/8)
    rfl

/-- **C6**: if the vector-store collaborator raises during `collection.query`,
`search` returns the empty result (no documents, metadata or distances,
count 0) instead of propagating the error. -/
theorem C6_search_failure_empty (collab : String → Nat → Except String QueryRes)
    (query : String) (topK : Option Nat) (e : String)
    (he : collab query (topK.getD TOP_K_RESULTS) = .error e) :
    search collab query topK = ⟨[], [], [], 0⟩ := by
  simp only [search]
  rw [he]

/-- Witness for C6: a collaborator that always raises. -/
theorem C6_search_failure_empty_witness :
    search (fun _ _ => .error "chromadb down") "any query" none = ⟨[], [], [], 0⟩ :=
  C6_search_failure_empty (fun _ _ => .error "chromadb down") "any query" none "chromadb down" rfl

theorem pyTakeLast_eq_drop_ex (k : Nat) (xs : List α) : ∃ d, pyTakeLast k xs = xs.drop d := by
  by_cases h : k = 0
  · exact ⟨0, by simp [pyTakeLast, h]⟩
  · exact ⟨xs.length - k, pyTakeLast_of_ne k h xs⟩

theorem foldl_join_length_ge (ps : List String) (p : String) :
    p.length ≤ (ps.foldl (fun acc x => acc ++ "\n" ++ x) p).length := by
  induction ps generalizing p with
  | nil => simp
  | cons q qs ih =>
    simp only [List.foldl_cons]
    refine le_trans ?_ (ih (p ++ "\n" ++ q))
    simp only [String.length_append]
    omega

/-- A non-empty search result always formats to a non-empty (hence Python
truthy) context string. -/
theorem format_context_ne_empty (r : SearchRes) (hc : r.count ≠ 0) :
    format_context r ≠ "" := by
  intro h
  have h0 : format_context r
      = (contextBlocks (r.documents.zip (r.metadatas.zip r.distances)) 1).foldl
          (fun acc x => acc ++ "\n" ++ x) contextHeader := by
    simp only [format_context, if_neg hc]
    rw [format_foldl_eq]
    rfl
  have h1 := foldl_join_length_ge
    (contextBlocks (r.documents.zip (r.metadatas.zip r.distances)) 1) contextHeader
  rw [← h0, h] at h1
  have h2 : ("" : String).length = 0 := rfl
  rw [h2] at h1
  have h3 : 0 < contextHeader.length := by decide
  omega

/-- The conditional context argument `Chatbot.process_query` passes to
`generate_response` (`src/chatbot.py:111-119`): the formatted context when the
search found something, `None` otherwise. -/
def processContextArg (r : SearchRes) : Option String :=
  if r.count > 0 then some (format_context r) else none

/-- **C3**: the message list sent to the generative collaborator is assembled
in the fixed order: system instruction first, then the at most
`max_history * 2` most recent history turns (a suffix of the history, in
chronological order), then — exactly when the retrieval result is non-empty —
a single grounding system message built from the context string, and the new
user message last.  When the result is empty no grounding block is present at
all, so the "no information" sentinel never enters the generative call. -/
theorem C3_prompt_assembly (maxHistory : Nat) (hm : 0 < maxHistory)
    (sysPrompt : String) (hist : List Message) (userQuery : String) (r : SearchRes) :
    (r.count = 0 →
      buildMessages maxHistory sysPrompt hist userQuery (processContextArg r) true
        = ⟨"system", sysPrompt⟩ ::
            (pyTakeLast (maxHistory * 2) hist ++ [⟨"user", userQuery⟩])) ∧
    (r.count ≠ 0 →
      buildMessages maxHistory sysPrompt hist userQuery (processContextArg r) true
        = ⟨"system", sysPrompt⟩ ::
            (pyTakeLast (maxHistory * 2) hist
              ++ [⟨"system", contextMessage (format_context r)⟩, ⟨"user", userQuery⟩])) ∧
    (pyTakeLast (maxHistory * 2) hist).length ≤ maxHistory * 2 ∧
    (∃ d, pyTakeLast (maxHistory * 2) hist = hist.drop d) := by
  refine ⟨?_, ?_, length_pyTakeLast_le _ (by omega) hist,
    pyTakeLast_eq_drop_ex (maxHistory * 2) hist⟩
  · intro h0
    simp only [buildMessages, processContextArg]
    rw [if_neg (by omega : ¬ r.count > 0)]
    simp only [pyTruthy]
    cases hist with
    | nil => simp [pyTakeLast]
    | cons a l => simp
  · intro h0
    simp only [buildMessages, processContextArg]
    rw [if_pos (by omega : r.count > 0)]
    have hb : pyTruthy (some (format_context r)) = true := by
      simp only [pyTruthy, bne_iff_ne, ne_eq]
      exact format_context_ne_empty r h0
    rw [hb]
    cases hist with
    | nil => simp [pyTakeLast]
    | cons a l => simp

/-- Witness for C3: an empty result yields no grounding block; the concrete
one-hit result yields exactly one grounding block before the user message. -/
theorem C3_prompt_assembly_witness :
    buildMessages 10 "sys" [⟨"user", "u"⟩, ⟨"assistant", "a"⟩] "q"
        (processContextArg ⟨[], [], [], 0⟩) true
      = ⟨"system", "sys"⟩ ::
          (pyTakeLast (10 * 2) [⟨"user", "u"⟩, ⟨"assistant", "a"⟩] ++ [⟨"user", "q"⟩]) ∧
    buildMessages 10 "sys" [] "q" (processContextArg rEx) true
      = ⟨"system", "sys"⟩ ::
          (pyTakeLast (10 * 2) []
            ++ [⟨"system", contextMessage (format_context rEx)⟩, ⟨"user", "q"⟩]) :=
  ⟨(C3_prompt_assembly 10 (by decide) "sys" [⟨"user", "u"⟩, ⟨"assistant", "a"⟩] "q"
      ⟨[], [], [], 0⟩).1 rfl,
   (C3_prompt_assembly 10 (by decide) "sys" [] "q" rEx).2.1 (by decide)⟩

/-- One entry of the parsed `faqs.json` array.  Fields are `Option` to model
dict keys that may be absent; `faq["k"]` on an absent key raises `KeyError`. -/
structure Faq where
  id : Option String
  question : Option String
  answer : Option String
  category : Option String
deriving DecidableEq, Repr

/-- One iteration of the ingestion preparation loop
(`src/knowledge_base.py:90-102`): keys are read in source order (question and
answer for the document text, then question/answer/category for the metadata
dict, then id), and the first absent key raises `KeyError`. -/
def faqEntry (f : Faq) : Except String (String × Meta × String) :=
  match f.question with
  | none => .error "KeyError: question"
  | some q =>
    match f.answer with
    | none => .error "KeyError: answer"
    | some a =>
      match f.category with
      | none => .error "KeyError: category"
      | some c =>
        match f.id with
        | none => .error "KeyError: id"
        | some i =>
          .ok ("Question: " ++ q ++ "\nAnswer: " ++ a,
               ⟨some q, some a, some c, some "faqs.json"⟩, i)

/-- The single batch handed to `collection.add` (`src/knowledge_base.py:104-109`). -/
structure AddBatch where
  documents : List String
  metadatas : List Meta
  ids : List String
deriving DecidableEq, Repr

/-- Prepend one prepared entry to a batch. -/
def consBatch (d : String) (m : Meta) (i : String) (b : AddBatch) : AddBatch :=
  ⟨d :: b.documents, m :: b.metadatas, i :: b.ids⟩

/-- The whole preparation loop: the three parallel lists in input order, or
the first raised `KeyError`. -/
def buildBatch : List Faq → Except String AddBatch
  | [] => .ok ⟨[], [], []⟩
  | f :: fs => (faqEntry f).bind fun t => (buildBatch fs).map (consBatch t.1 t.2.1 t.2.2)

/-- Observable outcome of one `load_faqs_from_json` call: the returned count,
every `collection.add` invocation performed, the number of
`reset_collection` calls, and the exception escaping to the caller (always
`none`: every branch of the function catches). -/
structure LoadResult where
  retVal : Nat
  addCalls : List AddBatch
  resets : Nat
  escapes : Option String
deriving DecidableEq, Repr

/-- The try-block body from the preparation loop onward
(`src/knowledge_base.py:85-122`): build the batch and call `collection.add`
once; any exception (a `KeyError` from the loop or a collaborator error from
`add`) is caught by `except Exception`, which logs and returns 0. -/
def ingestBatch (faqs : List Faq) (addResult : AddBatch → Except String Unit) :
    Nat × List AddBatch × Option String :=
  match buildBatch faqs with
  | .error _ => (0, [], none)
  | .ok batch =>
    match addResult batch with
    | .error _ => (0, [batch], none)
    | .ok _ => (faqs.length, [batch], none)

/-- `KnowledgeBase.load_faqs_from_json` (`src/knowledge_base.py:51-122`),
after the file has been read and parsed (file I/O and JSON decoding are
external collaborations; their failures are also caught and return 0).
`existingCount` is `collection.count()`, `promptYes` the interactive
"reset and reload?" answer used when `skipPrompt` is false. -/
def load_faqs_from_json (existingCount : Nat) (skipPrompt promptYes : Bool)
    (faqs : List Faq) (addResult : AddBatch → Except String Unit) : LoadResult :=
  if existingCount > 0 then
    if skipPrompt then ⟨existingCount, [], 0, none⟩
    else if promptYes then
      let r := ingestBatch faqs addResult
      ⟨r.1, r.2.1, 1, r.2.2⟩
    else ⟨existingCount, [], 0, none⟩
  else
    let r := ingestBatch faqs addResult
    ⟨r.1, r.2.1, 0, r.2.2⟩

theorem faqEntry_error_of_missing (f : Faq)
    (h : f.id = none ∨ f.question = none ∨ f.answer = none ∨ f.category = none) :
    ∃ e, faqEntry f = .error e := by
  rcases f with ⟨i, q, a, c⟩
  cases q with
  | none => exact ⟨"KeyError: question", rfl⟩
  | some q =>
    cases a with
    | none => exact ⟨"KeyError: answer", rfl⟩
    | some a =>
      cases c with
      | none => exact ⟨"KeyError: category", rfl⟩
      | some c =>
        cases i with
        | none => exact ⟨"KeyError: id", rfl⟩
        | some i => simp at h

theorem buildBatch_error_of_mem (faqs : List Faq) (f : Faq) (hf : f ∈ faqs)
    (e : String) (he : faqEntry f = .error e) :
    ∃ e2, buildBatch faqs = .error e2 := by
  induction faqs with
  | nil => simp at hf
  | cons a l ih =>
    rcases List.mem_cons.mp hf with h | h
    · subst h
      exact ⟨e, by simp only [buildBatch]; rw [he]; rfl⟩
    · rcases hfa : faqEntry a with e3 | v
      · exact ⟨e3, by simp only [buildBatch]; rw [hfa]; rfl⟩
      · obtain ⟨e2, h2⟩ := ih h
        refine ⟨e2, ?_⟩
        simp only [buildBatch]
        rw [hfa]
        show (buildBatch l).map (consBatch v.1 v.2.1 v.2.2) = Except.error e2
        rw [h2]
        rfl

/-- **C7 counterexample**: a batch whose single document lacks `id` does not
make the call fail with a raised `ValidationError` (no such error type exists
anywhere in the code): the internal `KeyError` is swallowed by
`except Exception`, the call returns 0 normally (`escapes = none`), and no
store operation is attempted. -/
theorem C7_no_validation_error :
    load_faqs_from_json 0 false false [⟨none, some "Q1", some "A1", some "billing"⟩]
        (fun _ => .ok ())
      = ⟨0, [], 0, none⟩ := rfl

/-- **C7 (amended)**: a batch containing a document with any missing key
(in particular a missing `id`) makes `load_faqs_from_json` return 0 without
invoking the store `add` at all (the store is untouched), and nothing
escapes to the caller; duplicate ids within the batch are not checked by the
code itself — the batch is handed to the store collaborator, and if the
collaborator rejects it the call likewise returns 0 after that single
rejected `add`, with no further store modification and nothing escaping. -/
theorem C7_ingest_failure_modes (faqs : List Faq)
    (addResult : AddBatch → Except String Unit) :
    ((∃ f ∈ faqs, f.id = none ∨ f.question = none ∨ f.answer = none ∨ f.category = none) →
      load_faqs_from_json 0 false false faqs addResult = ⟨0, [], 0, none⟩) ∧
    (∀ batch e, buildBatch faqs = .ok batch → addResult batch = .error e →
      load_faqs_from_json 0 false false faqs addResult = ⟨0, [batch], 0, none⟩) := by
  constructor
  · rintro ⟨f, hf, hmiss⟩
    obtain ⟨e, he⟩ := faqEntry_error_of_missing f hmiss
    obtain ⟨e2, h2⟩ := buildBatch_error_of_mem faqs f hf e he
    simp [load_faqs_from_json, ingestBatch, h2]
  · intro batch e hbb hadd
    simp [load_faqs_from_json, ingestBatch, hbb, hadd]

/-- Witness for the amended C7: a missing-id batch loads nothing and never
calls `add`; a batch with the duplicate id "1" is handed to a rejecting
collaborator once and the call returns 0. -/
theorem C7_ingest_failure_modes_witness :
    load_faqs_from_json 0 false false [⟨none, some "Q1", some "A1", some "billing"⟩]
        (fun _ => .error "unused")
      = ⟨0, [], 0, none⟩ ∧
    load_faqs_from_json 0 false false
        [⟨some "1", some "Q1", some "A1", some "billing"⟩,
         ⟨some "1", some "Q2", some "A2", some "billing"⟩]
        (fun _ => .error "DuplicateIDError")
      = ⟨0, [⟨["Question: Q1\nAnswer: A1", "Question: Q2\nAnswer: A2"],
              [⟨some "Q1", some "A1", some "billing", some "faqs.json"⟩,
               ⟨some "Q2", some "A2", some "billing", some "faqs.json"⟩],
              ["1", "1"]⟩], 0, none⟩ :=
  ⟨(C7_ingest_failure_modes [⟨none, some "Q1", some "A1", some "billing"⟩]
        (fun _ => .error "unused")).1
      ⟨⟨none, some "Q1", some "A1", some "billing"⟩, by simp, Or.inl rfl⟩,
   (C7_ingest_failure_modes
        [⟨some "1", some "Q1", some "A1", some "billing"⟩,
         ⟨some "1", some "Q2", some "A2", some "billing"⟩]
        (fun _ => .error "DuplicateIDError")).2
      ⟨["Question: Q1\nAnswer: A1", "Question: Q2\nAnswer: A2"],
       [⟨some "Q1", some "A1", some "billing", some "faqs.json"⟩,
        ⟨some "Q2", some "A2", some "billing", some "faqs.json"⟩],
       ["1", "1"]⟩ "DuplicateIDError" rfl rfl⟩

/-- `config.AUDIO_OUTPUT_PATH` default from `src/config.py`. -/
def AUDIO_OUTPUT_PATH : String := "./audio_responses"

/-- `str(Path(dir) / file)`: Python's `PurePath` drops a leading `./` when
rendering.  (Stated on the character lists so the definition evaluates by
kernel reduction.) -/
def pyPathStr (dir file : String) : String :=
  (if "./".data.isPrefixOf dir.data then String.mk (dir.data.drop 2) else dir) ++ "/" ++ file

/-- The `.wav`-extension fix-up, `output_filename.endswith(".wav")`
(`src/tts_service.py:103-104`). -/
def ensureWav (name : String) : String :=
  if ".wav".data.isSuffixOf name.data then name else name ++ ".wav"

/-- Result of one `text_to_speech` call: the returned path (or `None`), and
the text handed to each speech-synthesis invocation. -/
structure TTSResult where
  path : Option String
  synthCalls : List String
deriving DecidableEq, Repr

/-- `TTSService.text_to_speech` (`src/tts_service.py:54-124`).  `modelLoaded`
is false when construction left `self.model = None`; `synth` is the fallible
collaborator span (tokenise → model forward → normalise → `sf.write`) applied
to the prepared text, whose `.error` is caught by the `except` clause and
returns `None`.  Texts longer than 500 characters are truncated to their
first 497 characters plus `"..."` before synthesis.  `defaultName` stands for
the timestamp-generated filename used when `output_filename` is `None`. -/
def text_to_speech (modelLoaded : Bool) (synth : String → Except String Unit)
    (text : String) (outputFilename : Option String) (defaultName : String) : TTSResult :=
  if !modelLoaded then ⟨none, []⟩
  else
    let t := if text.length > 500 then text.take 497 ++ "..." else text
    match synth t with
    | .error _ => ⟨none, [t]⟩
    | .ok _ =>
      ⟨some (pyPathStr AUDIO_OUTPUT_PATH (ensureWav (outputFilename.getD defaultName))), [t]⟩

/-- `TTSService.batch_convert` (`src/tts_service.py:175-202`): render each
text with filename `"{prefix}_{i}.wav"` (`i` 1-based), appending each truthy
returned path, in order. -/
def batch_convert (modelLoaded : Bool) (synth : String → Except String Unit)
    (texts : List String) (pre : String) : List String :=
  texts.enum.foldl (fun acc it =>
    let r := text_to_speech modelLoaded synth it.2
      (some (pre ++ "_" ++ toString (it.1 + 1) ++ ".wav")) ""
    if pyTruthy r.path then acc ++ [r.path.getD ""] else acc) []

theorem foldl_filter_append (g : α → Option String) (l : List α) (acc : List String) :
    l.foldl (fun acc x => if pyTruthy (g x) then acc ++ [(g x).getD ""] else acc) acc
      = acc ++ l.filterMap (fun x => if pyTruthy (g x) then some ((g x).getD "") else none) := by
  induction l generalizing acc with
  | nil => simp
  | cons x l ih =>
    by_cases h : pyTruthy (g x) = true
    · simp only [List.foldl_cons, List.filterMap_cons, if_pos h, ih]
      simp
    · simp only [List.foldl_cons, List.filterMap_cons, if_neg h, ih]

/-- **C8**: `batch_convert` renders every entry independently: the returned
list is exactly the per-entry successful paths filtered out of the input
order, so one entry's synthesis failure skips that entry without aborting the
rest; concretely, over `["A", "B", "C"]` with `"B"`'s synthesis raising, the
result is the paths of `"A"` and `"C"`. -/
theorem C8_batch_independent (modelLoaded : Bool) (synth : String → Except String Unit)
    (texts : List String) (pre : String) :
    batch_convert modelLoaded synth texts pre
      = texts.enum.filterMap (fun it =>
          if pyTruthy (text_to_speech modelLoaded synth it.2
              (some (pre ++ "_" ++ toString (it.1 + 1) ++ ".wav")) "").path
          then some ((text_to_speech modelLoaded synth it.2
              (some (pre ++ "_" ++ toString (it.1 + 1) ++ ".wav")) "").path.getD "")
          else none) ∧
    batch_convert true (fun t => if t = "B" then .error "synthesis failed" else .ok ())
        ["A", "B", "C"] "batch"
      = ["audio_responses/batch_1.wav", "audio_responses/batch_3.wav"] := by
  constructor
  · simp only [batch_convert]
    exact foldl_filter_append
      (fun it => (text_to_speech modelLoaded synth it.2
        (some (pre ++ "_" ++ toString (it.1 + 1) ++ ".wav")) "").path) texts.enum []
  · decide

/-- **C9**: with the model loaded, a text longer than 500 characters is
truncated before delegation to the speech-synthesis collaborator: the
synthesised text is the first 497 characters followed by `"..."`, of length
exactly 500; a text of at most 500 characters is synthesised unchanged. -/
theorem C9_truncation (synth : String → Except String Unit) (text : String)
    (outputFilename : Option String) (defaultName : String) :
    (500 < text.length →
      (text_to_speech true synth text outputFilename defaultName).synthCalls
        = [text.take 497 ++ "..."] ∧
      (text.take 497 ++ "...").length = 500) ∧
    (text.length ≤ 500 →
      (text_to_speech true synth text outputFilename defaultName).synthCalls = [text]) := by
  constructor
  · intro h
    constructor
    · simp only [text_to_speech, Bool.not_true, Bool.false_eq_true, if_false]
      rw [if_pos h]
      cases hs : synth (text.take 497 ++ "...") <;> rfl
    · rw [String.length_append]
      have ht : (text.take 497).length = 497 := by
        rw [String.take_eq]
        show (text.1.take 497).length = 497
        rw [List.length_take]
        have hl : text.length = text.1.length := rfl
        omega
      rw [ht]
      rfl
  · intro h
    simp only [text_to_speech, Bool.not_true, Bool.false_eq_true, if_false]
    rw [if_neg (by omega : ¬ text.length > 500)]
    cases hs : synth text <;> rfl

set_option maxRecDepth 10000 in
/-- Witness for C9: a 501-character text is synthesised as its 497-character
head plus `"..."`; a short text passes through unchanged. -/
theorem C9_truncation_witness :
    500 < (String.mk (List.replicate 501 'a')).length ∧
    (text_to_speech true (fun _ => .ok ()) (String.mk (List.replicate 501 'a')) none
        "out.wav").synthCalls
      = [(String.mk (List.replicate 501 'a')).take 497 ++ "..."] ∧
    ((String.mk (List.replicate 501 'a')).take 497 ++ "...").length = 500 ∧
    (text_to_speech true (fun _ => .ok ()) "short" none "out.wav").synthCalls = ["short"] :=
  ⟨by decide,
   ((C9_truncation (fun _ => .ok ()) (String.mk (List.replicate 501 'a')) none "out.wav").1
      (by decide)).1,
   ((C9_truncation (fun _ => .ok ()) (String.mk (List.replicate 501 'a')) none "out.wav").1
      (by decide)).2,
   (C9_truncation (fun _ => .ok ()) "short" none "out.wav").2 (by decide)⟩
